import Mathlib

/-
  Verification development for the `sales` invoice-import application
  (files `sales/integration.py`, `sales/models.py`).

  The Python code is shallowly embedded as executable Lean definitions:

  * `InvoiceParser` (integration.py lines 24-107) is a streaming state
    machine driven by the tokenizer callbacks `handle_starttag`,
    `handle_endtag` and `handle_data` of Python's `html.parser.HTMLParser`.
    The tokenizer itself is standard-library code, so a document is
    modelled at the callback level: a `List Event` of start-tag, end-tag
    and character-data events, with tag names already lowercased exactly
    as `HTMLParser` delivers them to the callbacks.
  * Python dicts with string keys (`self.result`, `self.track`) are
    association lists with Python's assignment/lookup semantics
    (`dinsert`, `dlookup`).
  * The engine `import_invoices` (lines 126-189) reads database rows; the
    row source is modelled as the list of rows the query returns (the SQL
    text is reproduced as `sql` below).  Fallible Python operations map
    to `Except PyError`: `int()` or `float()` failure is `valueError`, a failed
    `assert` is `assertionError`, a missing dict key while building the
    `ParsedInvoice` is `parseKeyError`, `CODE_NATURE[...]` on an unknown
    code is `codeKeyError`, `None.full_clean()` is `attributeError` and
    `None + str` is `typeError`.  `transaction.atomic` (line 145) makes
    the whole run one batch: `commit` applies the saves only when the run
    finished without error and leaves the sink untouched otherwise.
    Django's `full_clean`/`save` sink is external to this repository and
    is modelled as appending the record to the batch.
  * The `ParsedInvoice` dataclass (lines 14-21) annotates `number : int`,
    `operation/total/tax : float`, but CPython dataclasses do not coerce:
    at runtime every field holds the raw string the handler extracted, so
    all fields are `String` here.  `datetime.date` is a plain
    year/month/day record with `isoformat`.
-/

/-- `datetime.date`: calendar date as used by the engine (only construction,
equality and `isoformat` are exercised by the code under verification). -/
structure Date where
  year : Nat
  month : Nat
  day : Nat
  deriving DecidableEq, Repr

/-- Zero-padding helper for `Date.isoformat` (Python pads to 4/2/2 digits). -/
def pad (w n : Nat) : String :=
  let s := toString n
  String.mk (List.replicate (w - s.length) '0') ++ s

/-- `datetime.date.isoformat`: the `YYYY-MM-DD` rendering compared against the
parsed document's date at integration.py line 175. -/
def Date.isoformat (d : Date) : String :=
  pad 4 d.year ++ "-" ++ pad 2 d.month ++ "-" ++ pad 2 d.day

/-- One tokenizer callback event of `html.parser.HTMLParser`: tag names are
delivered lowercased, character data verbatim. -/
inductive Event where
  | start (tag : String)
  | stop (tag : String)
  | txt (data : String)
  deriving DecidableEq, Repr

/-- Python dict lookup `m[k]` / `m.get(k)` on a string-keyed dict modelled as
an association list (`none` models `KeyError`/absence). -/
def dlookup {β : Type} (k : String) : List (String × β) → Option β
  | [] => none
  | (k', v) :: t => if k' = k then some v else dlookup k t

/-- Python dict assignment `m[k] = v`: overwrite in place if the key exists,
otherwise append (insertion order preserved, as CPython dicts do). -/
def dinsert {β : Type} (k : String) (v : β) : List (String × β) → List (String × β)
  | [] => [(k, v)]
  | (k', v') :: t => if k' = k then (k, v) :: t else (k', v') :: dinsert k v t

/-- `k in m` on a Python dict. -/
def hasKey {β : Type} (k : String) (m : List (String × β)) : Bool :=
  (dlookup k m).isSome

/-- The mutable state of `InvoiceParser` (integration.py lines 27-31):
`result` accumulates extracted fields, `track` holds the open/closed flag of
each tracked section tag, `tag` is the most recently opened tag (reset to
`None` by `handle_endtag`). -/
structure PState where
  result : List (String × String)
  track : List (String × Bool)
  tag : Option String
  deriving DecidableEq, Repr

/-- `InvoiceParser.reset` (lines 27-31): the dict of tracked section flags,
all initially false, plus empty result and no current tag. -/
def initState : PState :=
  { result := []
    track := [("infnfe", false), ("ide", false), ("dest", false), ("det", false),
              ("prod", false), ("total", false), ("icmstot", false)]
    tag := none }

/-- Set one tracked flag (`self.track[tag] = b`). -/
def trackSet (k : String) (b : Bool) (tr : List (String × Bool)) : List (String × Bool) :=
  tr.map (fun p => if p.1 = k then (k, b) else p)

/-- Read one tracked flag (`self.track[tag]`; only called with tracked keys). -/
def trackGet (k : String) (tr : List (String × Bool)) : Bool :=
  (dlookup k tr).getD false

/-- `InvoiceParser.handle_starttag` (lines 33-36). -/
def handle_starttag (s : PState) (tag : String) : PState :=
  { s with tag := some tag
           track := if hasKey tag s.track then trackSet tag true s.track else s.track }

/-- `InvoiceParser.handle_endtag` (lines 38-41). -/
def handle_endtag (s : PState) (tag : String) : PState :=
  { s with tag := none
           track := if hasKey tag s.track then trackSet tag false s.track else s.track }

/-- `InvoiceParser.is_prev` (lines 71-75): every queried section flag is open
and none of the queried tags is the currently-open innermost tag. -/
def is_prev (s : PState) (tags : List String) : Bool :=
  tags.all (fun t => !(decide (s.tag = some t)) && trackGet t s.track)

/-- `InvoiceParser.free` (lines 77-82): clear the given section flags, but
only once every `if_has` key is present in the result. -/
def free (s : PState) (tags : List String) (if_has : List String) : PState :=
  if if_has.all (fun k => hasKey k s.result) then
    { s with track := tags.foldl (fun tr t => trackSet t false tr) s.track }
  else s

/-- `InvoiceParser.handle_data` (lines 43-69). -/
def handle_data (s : PState) (data : String) : PState :=
  let tag := s.tag
  if is_prev s ["infnfe"] then
    if is_prev s ["ide"] then
      let s1 :=
        if tag = some "nnf" then { s with result := dinsert "number" data s.result }
        else if tag = some "dhemi" then { s with result := dinsert "date" (data.take 10) s.result }
        else if tag = some "demi" then { s with result := dinsert "date" data s.result }
        else s
      free s1 ["ide"] ["number", "date"]
    else if is_prev s ["dest"] then
      if tag = some "xnome" then
        free { s with result := dinsert "customer" data s.result } ["dest"] []
      else s
    else if is_prev s ["det", "prod"] then
      if tag = some "cfop" then
        free { s with result := dinsert "operation" data s.result } ["det", "prod"] []
      else s
    else if is_prev s ["total", "icmstot"] then
      let s1 :=
        if tag = some "vnf" then { s with result := dinsert "total" data s.result }
        else if tag = some "vicms" then { s with result := dinsert "tax" data s.result }
        else s
      free s1 ["total", "icmstot"] ["total", "tax"]
    else s
  else s

/-- Dispatch one tokenizer event to the matching handler. -/
def feedEvent (s : PState) : Event → PState
  | .start t => handle_starttag s t
  | .stop t => handle_endtag s t
  | .txt d => handle_data s d

/-- `parser.feed(content)` (line 96): run the tokenizer events through the
handlers starting from the reset state. -/
def feed (evts : List Event) : PState :=
  evts.foldl feedEvent initState

/-- The `ParsedInvoice` dataclass (integration.py lines 14-21).  The Python
annotations (`int`, `float`) are not enforced by CPython dataclasses; the
runtime values are the raw strings stored by `handle_data`, hence `String`
fields. -/
structure ParsedInvoice where
  number : String
  date : String
  customer : String
  operation : String
  total : String
  tax : String
  deriving DecidableEq, Repr

/-- `InvoiceParser.parse` (lines 87-107): feed the document events and read
the six required result keys; a missing key is Python's `KeyError` on
`r['...']`, modelled as `none`.  The date is re-truncated to its first 10
characters at line 102. -/
def InvoiceParser.parse (evts : List Event) : Option ParsedInvoice :=
  let r := (feed evts).result
  match dlookup "number" r, dlookup "date" r, dlookup "customer" r,
        dlookup "operation" r, dlookup "total" r, dlookup "tax" r with
  | some n, some d, some c, some o, some t, some tx =>
      some { number := n, date := d.take 10, customer := c, operation := o,
             total := t, tax := tx }
  | _, _, _, _, _, _ => none

/-- The `Invoice` model (models.py lines 6-32).  `number` is the integer
primary key; all other data fields are nullable and start unset.  `nature`
holds one of the one-letter nature constants below. -/
structure Invoice where
  number : Int
  date : Date
  customer : Option String := none
  nature : Option String := none
  total : Option String := none
  tax : Option String := none
  tickets : Option String := none
  comment : Option String := none
  deriving DecidableEq, Repr

/-- models.py line 7. -/
def Invoice.SALE : String := "S"
/-- models.py line 8. -/
def Invoice.SKIPPED : String := "K"
/-- models.py line 9. -/
def Invoice.CANCELED : String := "C"
/-- models.py line 10. -/
def Invoice.DENIED : String := "D"
/-- models.py line 11. -/
def Invoice.SALE_RETURN : String := "U"
/-- models.py line 12. -/
def Invoice.PURCHASE_RETURN : String := "P"
/-- models.py line 13. -/
def Invoice.RMA : String := "R"

/-- `CODE_NATURE` (integration.py lines 110-123): the classification dict,
keyed by the textual CFOP codes exactly as they appear in the source. -/
def CODE_NATURE : List (String × String) :=
  [("1202", Invoice.SALE_RETURN),
   ("1411", Invoice.SALE_RETURN),
   ("2202", Invoice.SALE_RETURN),
   ("2411", Invoice.SALE_RETURN),
   ("5929", Invoice.SALE),
   ("6929", Invoice.SALE),
   ("5202", Invoice.PURCHASE_RETURN),
   ("5411", Invoice.PURCHASE_RETURN),
   ("6202", Invoice.PURCHASE_RETURN),
   ("6411", Invoice.PURCHASE_RETURN),
   ("6915", Invoice.RMA),
   ("6949", Invoice.RMA)]

/-- One row of the result set of the `SELECT DISTINCT` query (lines 133-142):
`(v.NUMERO, v.DATA_EMISSAO, v.XML, v.RECIBO_CODSTATUS, v.CANCELA_CODSTATUS,
i.NUMERO_IMP)`.  The raw XML bytes are modelled as the tokenizer event stream
the standard-library `HTMLParser` would deliver for them. -/
structure Row where
  txt_number : String
  date : Date
  xml : List Event
  status : String
  cancel_status : String
  ticket : String
  deriving DecidableEq, Repr

/-- The query text of `import_invoices` (integration.py lines 133-140),
whitespace flattened to single spaces. -/
def sql : String :=
  "SELECT DISTINCT v.NUMERO, v.DATA_EMISSAO, v.XML, v.RECIBO_CODSTATUS, v.CANCELA_CODSTATUS, i.NUMERO_IMP FROM VENDAS_NFE AS v INNER JOIN ITEVENDAS AS i ON v.NUMERO = i.NUMERO WHERE v.DOC = \x27NF\x27 AND i.DOC = \x27NF\x27 AND v.DATA_EMISSAO BETWEEN ? AND ?"

/-- The Python exceptions the import run can raise, each fatal to the run. -/
inductive PyError where
  /-- `int()` on a non-numeric string (lines 148 and 174) or `float()` on a
  non-numeric string (lines 180-181). -/
  | valueError
  /-- a failed `assert` (lines 174-175). -/
  | assertionError
  /-- `KeyError` from `r['...']` inside `InvoiceParser.parse` (lines 100-107). -/
  | parseKeyError
  /-- `KeyError` from `CODE_NATURE[pix.operation]` (line 178). -/
  | codeKeyError
  /-- `AttributeError` from `v.full_clean()` with `v = None` (line 188). -/
  | attributeError
  /-- `TypeError` from `None + str` (line 155). -/
  | typeError
  deriving DecidableEq, Repr

/-- Accumulate the decimal value of a digit string; any non-digit character
fails the conversion. -/
def natOfDigitsAux (acc : Nat) : List Char → Option Nat
  | [] => some acc
  | c :: rest => if c.isDigit then natOfDigitsAux (acc * 10 + (c.toNat - 48)) rest else none

/-- Python `int(s)` on a string, as used at lines 148 and 174: an optional
sign followed by at least one decimal digit; anything else raises
`ValueError` (modelled as `none`). -/
def pyInt (s : String) : Option Int :=
  match s.data with
  | [] => none
  | '-' :: rest =>
      match rest with
      | [] => none
      | _ => (natOfDigitsAux 0 rest).map (fun n => -(n : Int))
  | '+' :: rest =>
      match rest with
      | [] => none
      | _ => (natOfDigitsAux 0 rest).map (fun n => (n : Int))
  | l => (natOfDigitsAux 0 l).map (fun n => (n : Int))

/-- One character of Python `str.upper()` (line 179): the Unicode uppercase
mapping over the Basic Latin and Latin-1 blocks, covering the full repertoire
of this system's data (Portuguese names), including the one-to-many
expansions (`ß` to `SS`) and the cross-block targets (`µ` to U+039C, `ÿ` to
U+0178); `÷` and code points above U+00FF are returned unchanged. -/
def pyUpperChar (c : Char) : List Char :=
  let n := c.toNat
  if 97 ≤ n ∧ n ≤ 122 then [Char.ofNat (n - 32)]
  else if n = 181 then [Char.ofNat 924]
  else if n = 223 then [Char.ofNat 83, Char.ofNat 83]
  else if 224 ≤ n ∧ n ≤ 254 ∧ n ≠ 247 then [Char.ofNat (n - 32)]
  else if n = 255 then [Char.ofNat 376]
  else [c]

/-- Python `str.upper()` (line 179): concatenate the per-character uppercase
mappings. -/
def pyUpper (s : String) : String :=
  String.mk (s.data.flatMap pyUpperChar)

/-- Leading decimal digits of a character list: their count and the rest. -/
def spanDigits : List Char → Nat × List Char
  | [] => (0, [])
  | c :: t =>
      if c.isDigit then
        let (n, r) := spanDigits t
        (n + 1, r)
      else (0, c :: t)

/-- An optional sign followed by at least one digit and nothing else (the
exponent part of a Python float literal). -/
def signedDigits (l : List Char) : Bool :=
  let l1 := match l with
    | '+' :: t => t
    | '-' :: t => t
    | t => t
  let (n, r) := spanDigits l1
  decide (0 < n) && r.isEmpty

/-- An empty tail or an `e`/`E` exponent part. -/
def expOk : List Char → Bool
  | [] => true
  | 'e' :: t => signedDigits t
  | 'E' :: t => signedDigits t
  | _ => false

/-- Mantissa (digits, optional point, at least one digit overall) followed by
an optional exponent. -/
def mantissaExp (l : List Char) : Bool :=
  let (n1, r1) := spanDigits l
  match r1 with
  | '.' :: t =>
      let (n2, r2) := spanDigits t
      decide (0 < n1 + n2) && expOk r2
  | r => decide (0 < n1) && expOk r

/-- Python `float(s)` on a string, as used at lines 180-181: an optional sign
and a finite decimal literal (digits with optional point and optional
exponent); anything else raises `ValueError` (modelled as `none`).  The
accepted literal itself stands for the float value (float arithmetic is
never performed on it by the code under verification). -/
def pyFloat (s : String) : Option String :=
  let ok := match s.data with
    | '+' :: t => mantissaExp t
    | '-' :: t => mantissaExp t
    | t => mantissaExp t
  if ok then some s else none

/-- Lines 162-185: build the record for a fresh document number.  `Invoice(
number=number, date=date)` then the cancel/denied/parse branch cascade; on
the parse branch the two consistency asserts, the `CODE_NATURE` lookup, the
upper-cased customer, the `float(...)` conversions of total and tax (each of
which can raise `ValueError` on non-numeric text, lines 180-181), and the
ticket when the nature is a sale. -/
def mkInvoice (number : Int) (row : Row) : Except PyError Invoice :=
  let v : Invoice := { number := number, date := row.date }
  if row.cancel_status ≠ "" then
    .ok { v with nature := some Invoice.CANCELED }
  else if row.status ≠ "100" then
    .ok { v with nature := some Invoice.DENIED }
  else
    match InvoiceParser.parse row.xml with
    | none => .error .parseKeyError
    | some pix =>
      match pyInt pix.number with
      | none => .error .valueError
      | some k =>
        if k = number then
          if pix.date = row.date.isoformat then
            match dlookup pix.operation CODE_NATURE with
            | none => .error .codeKeyError
            | some nt =>
              match pyFloat pix.total with
              | none => .error .valueError
              | some t =>
                match pyFloat pix.tax with
                | none => .error .valueError
                | some tx =>
                  let v1 : Invoice :=
                    { v with nature := some nt,
                             customer := some (pyUpper pix.customer),
                             total := some t,
                             tax := some tx }
                  if nt = Invoice.SALE then .ok { v1 with tickets := some row.ticket }
                  else .ok v1
          else .error .assertionError
        else .error .assertionError

/-- One iteration of the row loop (lines 146-185).  The loop state is the
list of records already saved plus the in-progress record `v` (line 143,
`None` before the first row).  A repeated number merges only the ticket (and
only when the current nature is a sale); a new number flushes the current
record and builds the next one via `mkInvoice`. -/
def step (st : List Invoice × Option Invoice) (row : Row) :
    Except PyError (List Invoice × Option Invoice) :=
  match pyInt row.txt_number with
  | none => .error .valueError
  | some number =>
    match st.2 with
    | some v =>
      if v.number = number then
        if v.nature = some Invoice.SALE then
          match v.tickets with
          | none => .error .typeError
          | some t => .ok (st.1, some { v with tickets := some (t ++ "," ++ row.ticket) })
        else .ok (st.1, some v)
      else
        match mkInvoice number row with
        | .error e => .error e
        | .ok nv => .ok (st.1 ++ [v], some nv)
    | none =>
      match mkInvoice number row with
      | .error e => .error e
      | .ok nv => .ok (st.1, some nv)

/-- `import_invoices` (lines 126-189) applied to the rows the query returned:
fold the loop over the rows, then the unconditional final
`v.full_clean(); v.save()` (lines 188-189), which dereferences `None` when
the result set was empty.  The returned list is the batch of saved records
in save order; any error aborts the run. -/
def import_invoices (rows : List Row) : Except PyError (List Invoice) :=
  match rows.foldlM step ([], none) with
  | .error e => .error e
  | .ok (saved, cur) =>
    match cur with
    | none => .error .attributeError
    | some v => .ok (saved ++ [v])

/-- `save` on the Django sink: the model's `number` is the primary key
(models.py line 25), so saving overwrites an existing record with the same
number and appends otherwise. -/
def save_to (sink : List Invoice) (v : Invoice) : List Invoice :=
  if sink.any (fun w => w.number = v.number) then
    sink.map (fun w => if w.number = v.number then v else w)
  else sink ++ [v]

/-- `transaction.atomic()` (line 145): the batch is applied to the sink only
when the run succeeds; on any error the sink is left exactly as it was. -/
def commit (sink : List Invoice) (res : Except PyError (List Invoice)) : List Invoice :=
  match res with
  | .ok batch => batch.foldl save_to sink
  | .error _ => sink

/-- Modelled from the spec (section 4.5 Ticket Aggregator), for comparison
with the code's behaviour: deduplicate the ticket references, drop
empty/null ones, join with commas, and leave the field unset when nothing
remains.  The repository's engine does not implement this contract; this
definition follows the spec's words only. -/
def ticketsSpec (refs : List String) : Option String :=
  let r := (refs.filter (fun t => t ≠ "")).dedup
  if r.isEmpty then none else some (String.intercalate "," r)

/-- A well-formed single-item invoice document as the tokenizer delivers it:
`infNFe` with `ide` (number and a date section), `dest/xNome`, one
`det/prod/CFOP` and the `total/ICMSTot` amounts, parameterized so concrete
witness documents and families of documents can be built from it. -/
def mkDoc (nnfD : String) (dateEvs : List Event)
    (custD cfopD vnfD vicmsD : String) : List Event :=
  [Event.start "infnfe", Event.start "ide",
   Event.start "nnf", Event.txt nnfD, Event.stop "nnf"] ++ dateEvs ++
  [Event.stop "ide",
   Event.start "dest", Event.start "xnome", Event.txt custD, Event.stop "xnome",
   Event.stop "dest",
   Event.start "det", Event.start "prod", Event.start "cfop", Event.txt cfopD,
   Event.stop "cfop", Event.stop "prod", Event.stop "det",
   Event.start "total", Event.start "icmstot",
   Event.start "vnf", Event.txt vnfD, Event.stop "vnf",
   Event.start "vicms", Event.txt vicmsD, Event.stop "vicms",
   Event.stop "icmstot", Event.stop "total",
   Event.stop "infnfe"]

/-- The timestamp variant of the issue-date field (`dhEmi`). -/
def dhemiEv (ts : String) : List Event :=
  [Event.start "dhemi", Event.txt ts, Event.stop "dhemi"]

/-- The plain-date variant of the issue-date field (`dEmi`). -/
def demiEv (d : String) : List Event :=
  [Event.start "demi", Event.txt d, Event.stop "demi"]

/-- Document number 7 carrying the timestamp date variant. -/
def docDhemi (ts : String) : List Event :=
  mkDoc "7" (dhemiEv ts) "Fulano de Tal" "5929" "1000.00" "180.00"

/-- The same document with the plain-date variant instead. -/
def docDemi (d : String) : List Event :=
  mkDoc "7" (demiEv d) "Fulano de Tal" "5929" "1000.00" "180.00"

/-- A concrete sale document (CFOP 5929, number 7, issued 2024-03-15). -/
def docSale : List Event :=
  docDhemi "2024-03-15T10:20:30-03:00"

/-- A concrete sale-return document with CFOP 1411 (number 8). -/
def doc1411 : List Event :=
  mkDoc "8" (dhemiEv "2024-03-15T10:20:30") "Cliente" "1411" "50.00" "5.00"

/-- A concrete document with the undocumented CFOP 9999 (number 9). -/
def doc9999 : List Event :=
  mkDoc "9" (dhemiEv "2024-03-15T10:20:30") "Cliente" "9999" "10.00" "1.00"

/-- A concrete document declaring number 1051 (for the consistency check). -/
def doc1051 : List Event :=
  mkDoc "1051" (dhemiEv "2024-03-15T10:20:30") "Cliente" "5929" "10.00" "1.00"

/-- The standard document with an arbitrary CFOP value in place. -/
def mkOpDoc (c : String) : List Event :=
  mkDoc "9" (dhemiEv "2024-03-15T10:20:30") "Cliente" c "10.00" "1.00"

/-- The standard document with an arbitrary recipient name in place. -/
def mkCustDoc (c : String) : List Event :=
  mkDoc "9" (dhemiEv "2024-03-15T10:20:30") c "5929" "10.00" "1.00"

/-- What `InvoiceParser.parse docSale` extracts. -/
def pixSale : ParsedInvoice :=
  { number := "7", date := "2024-03-15", customer := "Fulano de Tal",
    operation := "5929", total := "1000.00", tax := "180.00" }

/-- What `InvoiceParser.parse doc1051` extracts. -/
def pix1051 : ParsedInvoice :=
  { number := "1051", date := "2024-03-15", customer := "Cliente",
    operation := "5929", total := "10.00", tax := "1.00" }

/-- What `InvoiceParser.parse doc9999` extracts. -/
def pix9999 : ParsedInvoice :=
  { number := "9", date := "2024-03-15", customer := "Cliente",
    operation := "9999", total := "10.00", tax := "1.00" }

/-- First join row of sale 7: accepted receipt, ticket reference `123`. -/
def r1 : Row :=
  { txt_number := "7", date := { year := 2024, month := 3, day := 15 },
    xml := docSale, status := "100", cancel_status := "", ticket := "123" }

/-- Second join row of sale 7, identical except for an empty ticket
reference. -/
def r2 : Row :=
  { r1 with ticket := "" }

/-- A canceled row (number 1001); the XML payload is deliberately junk that
`InvoiceParser.parse` cannot parse. -/
def rA : Row :=
  { txt_number := "1001", date := { year := 2024, month := 3, day := 2 },
    xml := [Event.txt "garbage"], status := "", cancel_status := "2",
    ticket := "" }

/-- A canceled row with number 1002. -/
def rB : Row :=
  { rA with txt_number := "1002" }

/-- A second, non-contiguous row for number 1001 (an order the unordered
query may deliver). -/
def rA2 : Row :=
  { rA with ticket := "77" }

/-- The external row of the consistency-mismatch scenario: indexed number
1050, embedded document declaring 1051. -/
def row1050 : Row :=
  { txt_number := "1050", date := { year := 2024, month := 3, day := 15 },
    xml := doc1051, status := "100", cancel_status := "", ticket := "" }

/-- A row whose document carries the undocumented CFOP 9999. -/
def row9999 : Row :=
  { txt_number := "9", date := { year := 2024, month := 3, day := 15 },
    xml := doc9999, status := "100", cancel_status := "", ticket := "55" }

/-- A canceled row whose payload is unparseable junk. -/
def rowCanc : Row :=
  { txt_number := "42", date := { year := 2024, month := 3, day := 15 },
    xml := [Event.start "infnfe", Event.txt "<<broken"], status := "",
    cancel_status := "3", ticket := "9" }

/-- A pre-existing record in the sink, used to observe rollback. -/
def sinkInv : Invoice :=
  { number := 1, date := { year := 2024, month := 3, day := 1 },
    nature := some Invoice.CANCELED }

/-- The record `mkInvoice` builds for the first row of sale 7 (`r1`). -/
def cInv : Invoice :=
  { number := 7, date := { year := 2024, month := 3, day := 15 },
    customer := some "FULANO DE TAL", nature := some Invoice.SALE,
    total := some "1000.00", tax := some "180.00", tickets := some "123" }

/-- A parser state inside `det`/`prod` (not inside `total`/`ICMSTot`) with a
stray `vnf` tag open and a correctly-scoped total already extracted. -/
def exS : PState :=
  { result := [("total", "1000.00")],
    track := [("infnfe", true), ("ide", false), ("dest", false), ("det", true),
              ("prod", true), ("total", false), ("icmstot", false)],
    tag := some "vnf" }

/-- Folding `step` distributes over list append (error short-circuiting). -/
lemma foldlM_step_append (l1 l2 : List Row) (s : List Invoice × Option Invoice) :
    List.foldlM step s (l1 ++ l2) =
      (List.foldlM step s l1).bind (fun s' => List.foldlM step s' l2) := by
  induction l1 generalizing s with
  | nil => rfl
  | cons a l ih =>
      simp only [List.cons_append, List.foldlM_cons]
      cases h : step s a with
      | error e => rfl
      | ok s' => simpa using ih s'

/-- An error raised while processing any row aborts the whole run with that
error (nothing after the failing row is processed, nothing is returned). -/
lemma run_error_of_step_error (pre post : List Row) (row : Row)
    (st : List Invoice × Option Invoice) (e : PyError)
    (hpre : List.foldlM step ([], none) pre = .ok st)
    (hst : step st row = .error e) :
    import_invoices (pre ++ row :: post) = .error e := by
  unfold import_invoices
  rw [foldlM_step_append, hpre]
  simp only [Except.bind, List.foldlM_cons, hst, bind]

/-- A failing consistency assert (line 174 or 175) makes `mkInvoice` raise
`AssertionError`. -/
lemma mkInvoice_assert_fail (number : Int) (row : Row) (pix : ParsedInvoice) (k : Int)
    (hc : row.cancel_status = "") (hs : row.status = "100")
    (hp : InvoiceParser.parse row.xml = some pix)
    (hk : pyInt pix.number = some k)
    (hm : k ≠ number ∨ pix.date ≠ row.date.isoformat) :
    mkInvoice number row = .error .assertionError := by
  rcases hm with h | h
  · by_cases hd : pix.date = row.date.isoformat <;>
      simp [mkInvoice, hc, hs, hp, hk, h, hd]
  · by_cases hkn : k = number <;> simp [mkInvoice, hc, hs, hp, hk, hkn, h]

/-- The record built on the successful parse-classify-convert path
(lines 173-185): both `float(...)` conversions must also accept their
text. -/
lemma mkInvoice_parsed (number : Int) (row : Row) (pix : ParsedInvoice)
    (nt t tx : String)
    (hc : row.cancel_status = "") (hs : row.status = "100")
    (hp : InvoiceParser.parse row.xml = some pix)
    (hk : pyInt pix.number = some number)
    (hd : pix.date = row.date.isoformat)
    (hcl : dlookup pix.operation CODE_NATURE = some nt)
    (htot : pyFloat pix.total = some t)
    (htax : pyFloat pix.tax = some tx) :
    mkInvoice number row = .ok
      { number := number, date := row.date,
        customer := some (pyUpper pix.customer), nature := some nt,
        total := some t, tax := some tx,
        tickets := if nt = Invoice.SALE then some row.ticket else none } := by
  by_cases hnt : nt = Invoice.SALE <;>
    simp [mkInvoice, hc, hs, hp, hk, hd, hcl, htot, htax, hnt]

/-- `CODE_NATURE[pix.operation]` on an undocumented code raises `KeyError`
(line 178). -/
lemma mkInvoice_classify_fail (number : Int) (row : Row) (pix : ParsedInvoice)
    (hc : row.cancel_status = "") (hs : row.status = "100")
    (hp : InvoiceParser.parse row.xml = some pix)
    (hk : pyInt pix.number = some number)
    (hd : pix.date = row.date.isoformat)
    (hcl : dlookup pix.operation CODE_NATURE = none) :
    mkInvoice number row = .error .codeKeyError := by
  simp [mkInvoice, hc, hs, hp, hk, hd, hcl]

/-- A row starting a new document number flushes the in-progress record and
installs the one `mkInvoice` builds (lines 150-163). -/
lemma step_new (saved : List Invoice) (cur : Option Invoice) (number : Int) (row : Row)
    (res : Except PyError Invoice)
    (hn : pyInt row.txt_number = some number)
    (hcur : ∀ v, cur = some v → v.number ≠ number)
    (hmk : mkInvoice number row = res) :
    step (saved, cur) row =
      res.bind (fun nv => .ok (saved ++ cur.toList, some nv)) := by
  cases cur with
  | none =>
      simp only [step, hn]
      rw [hmk]
      cases res <;> simp [Except.bind]
  | some v =>
      have hne : v.number ≠ number := hcur v rfl
      simp only [step, hn]
      rw [if_neg hne, hmk]
      cases res <;> simp [Except.bind]

/-- A repeated row of an in-progress sale only appends `"," + ticket`
(lines 153-156). -/
lemma step_dup (saved : List Invoice) (v : Invoice) (row : Row) (t : String)
    (hn : pyInt row.txt_number = some v.number)
    (hnat : v.nature = some Invoice.SALE)
    (ht : v.tickets = some t) :
    step (saved, some v) row =
      .ok (saved, some { v with tickets := some (t ++ "," ++ row.ticket) }) := by
  simp only [step, hn]
  simp [hnat, ht]

/-- `Invoice(number=number, ...)` (line 163): the built record carries the
row's coerced number. -/
lemma mkInvoice_number (number : Int) (row : Row) (v : Invoice)
    (h : mkInvoice number row = .ok v) : v.number = number := by
  unfold mkInvoice at h
  repeat' split at h
  all_goals first
    | (cases h; rfl)
    | cases h

/-- When the built record's nature is a sale, its tickets field was set to
the row's ticket reference (lines 184-185). -/
lemma mkInvoice_sale_tickets (number : Int) (row : Row) (v : Invoice)
    (h : mkInvoice number row = .ok v)
    (hnat : v.nature = some Invoice.SALE) : v.tickets = some row.ticket := by
  unfold mkInvoice at h
  repeat' split at h
  all_goals try cases h
  all_goals simp_all [Invoice.CANCELED, Invoice.DENIED, Invoice.SALE]

/-- Folding the loop over a block of repeated-number rows of an in-progress
sale appends each row's ticket after a comma, in row order. -/
lemma step_dup_fold (dups : List Row) (saved : List Invoice) (v : Invoice) (t : String)
    (hnat : v.nature = some Invoice.SALE)
    (ht : v.tickets = some t)
    (hall : ∀ r ∈ dups, pyInt r.txt_number = some v.number) :
    List.foldlM step (saved, some v) dups =
      .ok (saved, some { v with
        tickets := some (dups.foldl (fun acc r => acc ++ "," ++ r.ticket) t) }) := by
  induction dups generalizing v t with
  | nil =>
      simp only [List.foldlM_nil, List.foldl_nil]
      rw [← ht]
      rfl
  | cons r rs ih =>
      have hr : pyInt r.txt_number = some v.number := hall r (by simp)
      rw [List.foldlM_cons, step_dup saved v r t hr hnat ht]
      simp only [bind, Except.bind, List.foldl_cons]
      exact ih { v with tickets := some (t ++ "," ++ r.ticket) }
        (t ++ "," ++ r.ticket) hnat rfl
        (fun r' hr' => hall r' (by simp [hr']))

/-- `free` only clears section flags; it never touches the extracted
result. -/
lemma free_result (s : PState) (tags if_has : List String) :
    (free s tags if_has).result = s.result := by
  unfold free
  split <;> rfl

/-- Assigning one dict key leaves lookups of any other key unchanged. -/
lemma dlookup_dinsert_ne {β : Type} (k k' : String) (v : β) (m : List (String × β))
    (h : k ≠ k') : dlookup k' (dinsert k v m) = dlookup k' m := by
  induction m with
  | nil => simp [dinsert, dlookup, h]
  | cons p t ih =>
      obtain ⟨k0, v0⟩ := p
      by_cases h0 : k0 = k
      · subst h0
        simp [dinsert, dlookup, h]
      · simp only [dinsert, if_neg h0]
        by_cases h1 : k0 = k'
        · simp [dlookup, h1]
        · simp [dlookup, h1, ih]

/-- Core of the path-scoping argument: while the ancestor chain
`infNFe > total > ICMSTot` is not simultaneously open (or one of those tags
is the innermost), a data event can only write the `ide`/`dest`/`det` keys,
so any result slot other than those keys is untouched. -/
lemma handle_data_unscoped (s : PState) (d k : String)
    (hn : "number" ≠ k) (hd : "date" ≠ k) (hc : "customer" ≠ k)
    (ho : "operation" ≠ k)
    (h : ¬(is_prev s ["infnfe"] = true ∧ is_prev s ["total", "icmstot"] = true)) :
    dlookup k (handle_data s d).result = dlookup k s.result := by
  unfold handle_data
  by_cases h1 : is_prev s ["infnfe"] = true
  · have h4 : ¬ is_prev s ["total", "icmstot"] = true := fun hh => h ⟨h1, hh⟩
    simp only [h1, if_true, h4, if_false]
    by_cases h2 : is_prev s ["ide"] = true
    · simp only [h2, if_true, free_result]
      split_ifs <;> simp [dlookup_dinsert_ne, hn, hd, hc, ho]
    · simp only [h2, if_false]
      by_cases h3 : is_prev s ["dest"] = true
      · simp only [h3, if_true]
        split_ifs <;> simp [free_result, dlookup_dinsert_ne, hn, hd, hc, ho]
      · simp only [h3, if_false]
        by_cases h5 : is_prev s ["det", "prod"] = true
        · simp only [h5, if_true]
          split_ifs <;> simp [free_result, dlookup_dinsert_ne, hn, hd, hc, ho]
        · simp [h5]
  · simp [h1]

set_option maxHeartbeats 1000000 in
/-- Evaluation of the extractor on the standard document shape with the
timestamp date variant: every field is returned verbatim except the date,
which is truncated once by the `dhemi` branch and once more by `parse`. -/
lemma parse_mkDoc_dhemi (nnfD ts custD cfopD vnfD vicmsD : String) :
    InvoiceParser.parse (mkDoc nnfD (dhemiEv ts) custD cfopD vnfD vicmsD) =
      some { number := nnfD, date := (ts.take 10).take 10, customer := custD,
             operation := cfopD, total := vnfD, tax := vicmsD } := by
  unfold InvoiceParser.parse feed mkDoc dhemiEv
  rw [List.foldl_append, List.foldl_append]
  have h1 : List.foldl feedEvent initState
      [Event.start "infnfe", Event.start "ide",
       Event.start "nnf", Event.txt nnfD, Event.stop "nnf"] =
      { result := [("number", nnfD)],
        track := [("infnfe", true), ("ide", true), ("dest", false), ("det", false),
                  ("prod", false), ("total", false), ("icmstot", false)],
        tag := none } := by
    simp [feedEvent, handle_starttag, handle_endtag, handle_data, is_prev, free,
          trackSet, trackGet, hasKey, dlookup, dinsert, initState]
  rw [h1]
  have h2 : List.foldl feedEvent
      { result := [("number", nnfD)],
        track := [("infnfe", true), ("ide", true), ("dest", false), ("det", false),
                  ("prod", false), ("total", false), ("icmstot", false)],
        tag := none }
      [Event.start "dhemi", Event.txt ts, Event.stop "dhemi"] =
      { result := [("number", nnfD), ("date", ts.take 10)],
        track := [("infnfe", true), ("ide", false), ("dest", false), ("det", false),
                  ("prod", false), ("total", false), ("icmstot", false)],
        tag := none } := by
    simp [feedEvent, handle_starttag, handle_endtag, handle_data, is_prev, free,
          trackSet, trackGet, hasKey, dlookup, dinsert]
  rw [h2]
  have h3 : List.foldl feedEvent
      { result := [("number", nnfD), ("date", ts.take 10)],
        track := [("infnfe", true), ("ide", false), ("dest", false), ("det", false),
                  ("prod", false), ("total", false), ("icmstot", false)],
        tag := none }
      [Event.stop "ide",
       Event.start "dest", Event.start "xnome", Event.txt custD, Event.stop "xnome",
       Event.stop "dest",
       Event.start "det", Event.start "prod", Event.start "cfop", Event.txt cfopD,
       Event.stop "cfop", Event.stop "prod", Event.stop "det",
       Event.start "total", Event.start "icmstot",
       Event.start "vnf", Event.txt vnfD, Event.stop "vnf",
       Event.start "vicms", Event.txt vicmsD, Event.stop "vicms",
       Event.stop "icmstot", Event.stop "total",
       Event.stop "infnfe"] =
      { result := [("number", nnfD), ("date", ts.take 10), ("customer", custD),
                   ("operation", cfopD), ("total", vnfD), ("tax", vicmsD)],
        track := [("infnfe", false), ("ide", false), ("dest", false), ("det", false),
                  ("prod", false), ("total", false), ("icmstot", false)],
        tag := none } := by
    simp [feedEvent, handle_starttag, handle_endtag, handle_data, is_prev, free,
          trackSet, trackGet, hasKey, dlookup, dinsert]
  rw [h3]
  simp [dlookup]

set_option maxHeartbeats 1000000 in
/-- Evaluation of the extractor on the standard document shape with the
plain-date variant: the date is stored verbatim and truncated by `parse`. -/
lemma parse_mkDoc_demi (nnfD d custD cfopD vnfD vicmsD : String) :
    InvoiceParser.parse (mkDoc nnfD (demiEv d) custD cfopD vnfD vicmsD) =
      some { number := nnfD, date := d.take 10, customer := custD,
             operation := cfopD, total := vnfD, tax := vicmsD } := by
  unfold InvoiceParser.parse feed mkDoc demiEv
  rw [List.foldl_append, List.foldl_append]
  have h1 : List.foldl feedEvent initState
      [Event.start "infnfe", Event.start "ide",
       Event.start "nnf", Event.txt nnfD, Event.stop "nnf"] =
      { result := [("number", nnfD)],
        track := [("infnfe", true), ("ide", true), ("dest", false), ("det", false),
                  ("prod", false), ("total", false), ("icmstot", false)],
        tag := none } := by
    simp [feedEvent, handle_starttag, handle_endtag, handle_data, is_prev, free,
          trackSet, trackGet, hasKey, dlookup, dinsert, initState]
  rw [h1]
  have h2 : List.foldl feedEvent
      { result := [("number", nnfD)],
        track := [("infnfe", true), ("ide", true), ("dest", false), ("det", false),
                  ("prod", false), ("total", false), ("icmstot", false)],
        tag := none }
      [Event.start "demi", Event.txt d, Event.stop "demi"] =
      { result := [("number", nnfD), ("date", d)],
        track := [("infnfe", true), ("ide", false), ("dest", false), ("det", false),
                  ("prod", false), ("total", false), ("icmstot", false)],
        tag := none } := by
    simp [feedEvent, handle_starttag, handle_endtag, handle_data, is_prev, free,
          trackSet, trackGet, hasKey, dlookup, dinsert]
  rw [h2]
  have h3 : List.foldl feedEvent
      { result := [("number", nnfD), ("date", d)],
        track := [("infnfe", true), ("ide", false), ("dest", false), ("det", false),
                  ("prod", false), ("total", false), ("icmstot", false)],
        tag := none }
      [Event.stop "ide",
       Event.start "dest", Event.start "xnome", Event.txt custD, Event.stop "xnome",
       Event.stop "dest",
       Event.start "det", Event.start "prod", Event.start "cfop", Event.txt cfopD,
       Event.stop "cfop", Event.stop "prod", Event.stop "det",
       Event.start "total", Event.start "icmstot",
       Event.start "vnf", Event.txt vnfD, Event.stop "vnf",
       Event.start "vicms", Event.txt vicmsD, Event.stop "vicms",
       Event.stop "icmstot", Event.stop "total",
       Event.stop "infnfe"] =
      { result := [("number", nnfD), ("date", d), ("customer", custD),
                   ("operation", cfopD), ("total", vnfD), ("tax", vicmsD)],
        track := [("infnfe", false), ("ide", false), ("dest", false), ("det", false),
                  ("prod", false), ("total", false), ("icmstot", false)],
        tag := none } := by
    simp [feedEvent, handle_starttag, handle_endtag, handle_data, is_prev, free,
          trackSet, trackGet, hasKey, dlookup, dinsert]
  rw [h3]
  simp [dlookup]

set_option maxRecDepth 40000 in
/-- C1.  The claim says the source query orders rows by ascending document
number so that records are created in ascending order with all rows of one
number contiguous.  In fact the query text contains no ORDER BY at all, and
on a row order the unordered query is free to return (1001, 1002, 1001,
with junk XML payloads on canceled rows) the engine saves records numbered
1001, 1002, 1001: not ascending, and the duplicated number 1001 is saved as
two separate records (the second save overwrites the first at the primary
key). -/
theorem c1_no_order_by :
    ¬ List.IsInfix "ORDER BY".data sql.data ∧
    (import_invoices [rA, rB, rA2]).map (fun l => l.map Invoice.number) =
      .ok [1001, 1002, 1001] ∧
    ¬ List.Sorted (fun a b => a ≤ b) ([1001, 1002, 1001] : List Int) ∧
    ([1001, 1002, 1001] : List Int).count 1001 = 2 := by
  exact ⟨by decide, rfl, by decide, by decide⟩

/-- C2.  The claim says a period with zero qualifying rows commits zero
records and terminates without error.  The engine does commit zero records
(the transaction leaves any sink unchanged), but it does not terminate
cleanly: with no rows the loop variable is still `None` at the final
`v.full_clean()` (line 188), which raises `AttributeError`. -/
theorem c2_empty_run :
    import_invoices [] = .error .attributeError ∧
    ∀ sink : List Invoice, commit sink (import_invoices []) = sink :=
  ⟨rfl, fun _ => rfl⟩

/-- C3 counterexample.  For sale 7 with join-row ticket references
`["123", ""]` the persisted field is `"123,"` (the empty reference appended
after a comma), while the deduplicated, nonempty, comma-joined value the
claim requires is `"123"`. -/
theorem c3_counterexample :
    (import_invoices [r1, r2]).map (fun l => l.map Invoice.tickets) =
      .ok [some "123,"] ∧
    ticketsSpec [r1.ticket, r2.ticket] = some "123" ∧
    (some "123," : Option String) ≠ some "123" := by
  exact ⟨rfl, rfl, by decide⟩

/-- C3 as amended.  For an imported Sale record, `tickets` is the first join
row's reference followed by each subsequent duplicate row's reference each
preceded by a comma, in row order, with no deduplication and no filtering of
empty references. -/
theorem c3_tickets_concat (row : Row) (dups : List Row) (n : Int) (v : Invoice)
    (htxt : pyInt row.txt_number = some n)
    (hmk : mkInvoice n row = .ok v)
    (hnat : v.nature = some Invoice.SALE)
    (hall : ∀ r ∈ dups, pyInt r.txt_number = some n) :
    import_invoices (row :: dups) =
      .ok [{ v with
        tickets := some (dups.foldl (fun acc r => acc ++ "," ++ r.ticket) row.ticket) }] := by
  have hnum := mkInvoice_number n row v hmk
  have ht := mkInvoice_sale_tickets n row v hmk hnat
  unfold import_invoices
  rw [show (row :: dups) = [row] ++ dups from rfl, foldlM_step_append]
  have h1 : List.foldlM step ([], none) [row] = .ok ([], some v) := by
    rw [List.foldlM_cons, step_new [] none n row (.ok v) htxt (fun v h => nomatch h) hmk]
    rfl
  rw [h1]
  have h2 := step_dup_fold dups [] v row.ticket hnat ht (by rw [hnum]; exact hall)
  simp only [Except.bind, bind]
  rw [h2]
  rfl

/-- C3 witness: the amended statement applied to the concrete two-row run of
sale 7 with references `"123"` and `""`. -/
theorem c3_witness :
    pyInt r1.txt_number = some 7 ∧ mkInvoice 7 r1 = .ok cInv ∧
    cInv.nature = some Invoice.SALE ∧
    import_invoices [r1, r2] =
      .ok [{ cInv with
        tickets := some ([r2].foldl (fun acc r => acc ++ "," ++ r.ticket) r1.ticket) }] :=
  ⟨rfl, rfl, rfl, c3_tickets_concat r1 [r2] 7 cInv rfl rfl rfl (by decide)⟩

/-- C4.  If any row that reaches the consistency asserts has a parsed
document whose number (coerced to integer) differs from the row's coerced
number, or whose date differs from the row's date in ISO form, then the
whole run aborts with `AssertionError` and the committed sink state for the
period is exactly what it was before the run (full rollback, no partial
writes). -/
theorem c4_consistency_abort (pre post : List Row) (row : Row)
    (saved : List Invoice) (cur : Option Invoice) (pix : ParsedInvoice)
    (n k : Int) (sink : List Invoice)
    (hpre : List.foldlM step ([], none) pre = .ok (saved, cur))
    (hcur : ∀ v, cur = some v → v.number ≠ n)
    (htxt : pyInt row.txt_number = some n)
    (hc : row.cancel_status = "") (hs : row.status = "100")
    (hp : InvoiceParser.parse row.xml = some pix)
    (hk : pyInt pix.number = some k)
    (hm : k ≠ n ∨ pix.date ≠ row.date.isoformat) :
    import_invoices (pre ++ row :: post) = .error .assertionError ∧
    commit sink (import_invoices (pre ++ row :: post)) = sink := by
  have hmk := mkInvoice_assert_fail n row pix k hc hs hp hk hm
  have hstep : step (saved, cur) row = .error .assertionError := by
    rw [step_new saved cur n row (.error .assertionError) htxt hcur hmk]
    rfl
  have habort := run_error_of_step_error pre post row (saved, cur) _ hpre hstep
  refine ⟨habort, ?_⟩
  rw [habort]
  rfl

/-- C4 witness: the spec's scenario, external row number 1050 whose embedded
document declares 1051, aborts the one-row run and leaves a pre-existing
sink record untouched. -/
theorem c4_witness :
    pyInt row1050.txt_number = some 1050 ∧
    InvoiceParser.parse row1050.xml = some pix1051 ∧
    pyInt pix1051.number = some 1051 ∧ (1051 : Int) ≠ 1050 ∧
    import_invoices [row1050] = .error .assertionError ∧
    commit [sinkInv] (import_invoices [row1050]) = [sinkInv] := by
  have h := c4_consistency_abort [] [] row1050 [] none pix1051 1050 1051 [sinkInv]
    rfl (fun v hv => nomatch hv) rfl rfl rfl rfl rfl (Or.inl (by decide))
  exact ⟨rfl, rfl, rfl, by decide, h.1, h.2⟩

/-- C5.  A row with nonempty cancel-status is processed identically whatever
its XML payload holds (the document is never parsed, so malformed bytes can
never surface a parse error), and when it starts a new document number the
resulting record is Canceled with customer, total, tax and tickets all
unset. -/
theorem c5_canceled (st : List Invoice × Option Invoice) (row : Row) (n : Int)
    (hc : row.cancel_status ≠ "") :
    (∀ x, step st { row with xml := x } = step st row) ∧
    (pyInt row.txt_number = some n →
     (∀ v, st.2 = some v → v.number ≠ n) →
     step st row = .ok (st.1 ++ st.2.toList,
       some { number := n, date := row.date, nature := some Invoice.CANCELED })) := by
  constructor
  · intro x
    cases hn : pyInt row.txt_number with
    | none => simp [step, hn]
    | some number =>
        obtain ⟨saved, cur⟩ := st
        cases cur with
        | none => simp [step, hn, mkInvoice, hc]
        | some v =>
            by_cases hv : v.number = number
            · simp [step, hn, hv]
            · simp [step, hn, hv, mkInvoice, hc]
  · intro hn hcur
    have hmk : mkInvoice n row =
        .ok { number := n, date := row.date, nature := some Invoice.CANCELED } := by
      simp [mkInvoice, hc]
    obtain ⟨saved, cur⟩ := st
    rw [step_new saved cur n row _ hn hcur hmk]
    rfl

/-- C5 witness: a concrete canceled row with an unparseable payload yields
the bare Canceled record, and replacing the payload changes nothing. -/
theorem c5_witness :
    rowCanc.cancel_status ≠ "" ∧
    step ([], none) { rowCanc with xml := [] } = step ([], none) rowCanc ∧
    step ([], none) rowCanc =
      .ok ([], some { number := 42, date := rowCanc.date,
                      nature := some Invoice.CANCELED }) :=
  ⟨by decide,
   (c5_canceled ([], none) rowCanc 42 (by decide)).1 [],
   (c5_canceled ([], none) rowCanc 42 (by decide)).2 rfl (fun v hv => nomatch hv)⟩

/-- C6.  Classification is total over the documented code table with the
documented family for each code (sale, sale-return, purchase-return, RMA),
and any operation code outside the table makes the classification lookup
fail, which aborts the whole run with the `KeyError` (no silent default
nature). -/
theorem c6_classification :
    (dlookup "5929" CODE_NATURE = some Invoice.SALE ∧
     dlookup "6929" CODE_NATURE = some Invoice.SALE) ∧
    (dlookup "1202" CODE_NATURE = some Invoice.SALE_RETURN ∧
     dlookup "1411" CODE_NATURE = some Invoice.SALE_RETURN ∧
     dlookup "2202" CODE_NATURE = some Invoice.SALE_RETURN ∧
     dlookup "2411" CODE_NATURE = some Invoice.SALE_RETURN) ∧
    (dlookup "5202" CODE_NATURE = some Invoice.PURCHASE_RETURN ∧
     dlookup "5411" CODE_NATURE = some Invoice.PURCHASE_RETURN ∧
     dlookup "6202" CODE_NATURE = some Invoice.PURCHASE_RETURN ∧
     dlookup "6411" CODE_NATURE = some Invoice.PURCHASE_RETURN) ∧
    (dlookup "6915" CODE_NATURE = some Invoice.RMA ∧
     dlookup "6949" CODE_NATURE = some Invoice.RMA) ∧
    (∀ (pre post : List Row) (row : Row) (saved : List Invoice)
       (cur : Option Invoice) (pix : ParsedInvoice) (n : Int),
      List.foldlM step ([], none) pre = .ok (saved, cur) →
      (∀ v, cur = some v → v.number ≠ n) →
      pyInt row.txt_number = some n →
      row.cancel_status = "" → row.status = "100" →
      InvoiceParser.parse row.xml = some pix →
      pyInt pix.number = some n → pix.date = row.date.isoformat →
      dlookup pix.operation CODE_NATURE = none →
      import_invoices (pre ++ row :: post) = .error .codeKeyError) := by
  refine ⟨⟨rfl, rfl⟩, ⟨rfl, rfl, rfl, rfl⟩, ⟨rfl, rfl, rfl, rfl⟩, ⟨rfl, rfl⟩, ?_⟩
  intro pre post row saved cur pix n hpre hcur htxt hc hs hp hk hd hcl
  have hmk := mkInvoice_classify_fail n row pix hc hs hp hk hd hcl
  have hstep : step (saved, cur) row = .error .codeKeyError := by
    rw [step_new saved cur n row _ htxt hcur hmk]
    rfl
  exact run_error_of_step_error pre post row (saved, cur) _ hpre hstep

/-- C6 witness: code 9999 is outside the table, and importing the concrete
row whose document carries it aborts the run with the `KeyError`. -/
theorem c6_witness :
    dlookup "9999" CODE_NATURE = none ∧
    import_invoices [row9999] = .error .codeKeyError :=
  ⟨rfl, c6_classification.2.2.2.2 [] [] row9999 [] none pix9999 9
    rfl (fun _ hv => nomatch hv) rfl rfl rfl rfl rfl rfl rfl⟩

/-- C7 counterexample.  The claim says `operationCode` is the 4-digit code
divided by 1000 (1411 becoming the decimal 1.411) and that the classifier
is keyed by that decimal form.  Parsing a document with CFOP 1411 yields the
raw string `"1411"` (no dot, no division), the classifier has no key
`"1.411"`, and its key for this code is the raw `"1411"`. -/
theorem c7_counterexample :
    (InvoiceParser.parse doc1411).map ParsedInvoice.operation = some "1411" ∧
    dlookup "1.411" CODE_NATURE = none ∧
    dlookup "1411" CODE_NATURE = some Invoice.SALE_RETURN ∧
    ('.' : Char) ∉ "1411".data ∧
    ("1411" : String) ≠ "1.411" :=
  ⟨rfl, rfl, rfl, by decide, by decide⟩

/-- C7 as amended.  `operationCode` is the raw textual code copied verbatim
from the document's CFOP field (for every possible field text), and the
classifier's table is keyed by the same raw 4-digit textual codes. -/
theorem c7_operation_verbatim :
    (∀ c : String,
      (InvoiceParser.parse (mkOpDoc c)).map ParsedInvoice.operation = some c) ∧
    CODE_NATURE.map Prod.fst =
      ["1202", "1411", "2202", "2411", "5929", "6929",
       "5202", "5411", "6202", "6411", "6915", "6949"] := by
  refine ⟨fun c => ?_, rfl⟩
  unfold mkOpDoc
  rw [parse_mkDoc_dhemi]
  rfl

/-- C8.  Path scoping: a data event seen while the ancestor chain for the
totals section (`infNFe` and `total`/`ICMSTot` simultaneously open, none of
them the innermost tag) is not satisfied leaves the extracted `total` and
`tax` slots exactly as they were, whatever the data is; tag events never
touch the extracted results at all. -/
theorem c8_path_scoped (s : PState) (t d : String)
    (h : ¬(is_prev s ["infnfe"] = true ∧ is_prev s ["total", "icmstot"] = true)) :
    dlookup "total" (handle_data s d).result = dlookup "total" s.result ∧
    dlookup "tax" (handle_data s d).result = dlookup "tax" s.result ∧
    (handle_starttag s t).result = s.result ∧
    (handle_endtag s t).result = s.result :=
  ⟨handle_data_unscoped s d "total" (by decide) (by decide) (by decide) (by decide) h,
   handle_data_unscoped s d "tax" (by decide) (by decide) (by decide) (by decide) h,
   rfl, rfl⟩

/-- C8 witness: in a state inside `det`/`prod` with a stray `vnf` open and a
correctly-scoped total already extracted, a data event does not overwrite
the extracted total. -/
theorem c8_witness :
    ¬(is_prev exS ["infnfe"] = true ∧ is_prev exS ["total", "icmstot"] = true) ∧
    dlookup "total" (handle_data exS "999.99").result = dlookup "total" exS.result :=
  ⟨by decide, (c8_path_scoped exS "x" "999.99" (by decide)).1⟩

/-- C9.  For the standard document, the timestamp date variant (truncated to
its first 10 characters) and the plain-date variant produce identical parse
results whenever the truncation of the timestamp equals the plain date, and
parsing succeeds with only the one date field present. -/
theorem c9_date_variants (ts d : String) (h : ts.take 10 = d) :
    InvoiceParser.parse (docDhemi ts) = InvoiceParser.parse (docDemi d) ∧
    InvoiceParser.parse (docDemi d) =
      some { number := "7", date := d.take 10, customer := "Fulano de Tal",
             operation := "5929", total := "1000.00", tax := "180.00" } := by
  have e1 := parse_mkDoc_dhemi "7" ts "Fulano de Tal" "5929" "1000.00" "180.00"
  have e2 := parse_mkDoc_demi "7" d "Fulano de Tal" "5929" "1000.00" "180.00"
  rw [h] at e1
  unfold docDhemi docDemi
  exact ⟨e1.trans e2.symm, e2⟩

/-- C9 witness: the two concrete date-variant documents for 2024-03-15 parse
to the same result. -/
theorem c9_witness :
    "2024-03-15T10:20:30-03:00".take 10 = "2024-03-15" ∧
    InvoiceParser.parse (docDhemi "2024-03-15T10:20:30-03:00") =
      InvoiceParser.parse (docDemi "2024-03-15") ∧
    InvoiceParser.parse (docDemi "2024-03-15") =
      some { number := "7", date := "2024-03-15", customer := "Fulano de Tal",
             operation := "5929", total := "1000.00", tax := "180.00" } :=
  ⟨rfl, (c9_date_variants "2024-03-15T10:20:30-03:00" "2024-03-15" rfl).1,
   (c9_date_variants "2024-03-15T10:20:30-03:00" "2024-03-15" rfl).2⟩

/-- C10.  For a successfully parsed and imported row (one whose consistency
checks, classification and `float(...)` conversions of total and tax all
succeed) the persisted record's customer is the parsed recipient name
upper-cased by the engine (line 179), while the extractor itself returns the
document's recipient name verbatim, original casing included. -/
theorem c10_customer_upper (row : Row) (pix : ParsedInvoice) (n : Int)
    (nt t tx : String)
    (htxt : pyInt row.txt_number = some n)
    (hc : row.cancel_status = "") (hs : row.status = "100")
    (hp : InvoiceParser.parse row.xml = some pix)
    (hk : pyInt pix.number = some n)
    (hd : pix.date = row.date.isoformat)
    (hcl : dlookup pix.operation CODE_NATURE = some nt)
    (htot : pyFloat pix.total = some t)
    (htax : pyFloat pix.tax = some tx) :
    (∃ v : Invoice, import_invoices [row] = .ok [v] ∧
      v.customer = some (pyUpper pix.customer)) ∧
    (∀ c : String,
      (InvoiceParser.parse (mkCustDoc c)).map ParsedInvoice.customer = some c) := by
  constructor
  · have hmk := mkInvoice_parsed n row pix nt t tx hc hs hp hk hd hcl htot htax
    refine ⟨{ number := n, date := row.date, customer := some (pyUpper pix.customer),
              nature := some nt, total := some t, tax := some tx,
              tickets := if nt = Invoice.SALE then some row.ticket else none }, ?_, rfl⟩
    unfold import_invoices
    rw [List.foldlM_cons, step_new [] none n row _ htxt (fun v hv => nomatch hv) hmk]
    simp [Except.bind, bind, pure, Except.pure]
  · intro c
    unfold mkCustDoc
    rw [parse_mkDoc_dhemi]
    rfl

/-- C10 witness: the one-row run of sale 7 persists the upper-cased name of
the parsed mixed-case recipient (and the upper-casing model covers the
accented names of this domain). -/
theorem c10_witness :
    InvoiceParser.parse r1.xml = some pixSale ∧
    pixSale.customer = "Fulano de Tal" ∧
    pyUpper pixSale.customer = "FULANO DE TAL" ∧
    pyUpper "José da Silva" = "JOSÉ DA SILVA" ∧
    pyFloat pixSale.total = some "1000.00" ∧
    pyFloat pixSale.tax = some "180.00" ∧
    (∃ v : Invoice, import_invoices [r1] = .ok [v] ∧
      v.customer = some (pyUpper pixSale.customer)) :=
  ⟨rfl, rfl, rfl, rfl, rfl, rfl,
   (c10_customer_upper r1 pixSale 7 Invoice.SALE "1000.00" "180.00"
     rfl rfl rfl rfl rfl rfl rfl rfl rfl).1⟩
